import Mathlib

/-!
Verification of the two-component agentic-RAG demo application:
a FastAPI backend (server.py) exposing `GET /health` and `POST /predict`
over a fixed two-stage crewai pipeline, and a Streamlit front end (app.py)
that submits queries and renders results or categorized errors.

The Python sources are shallowly embedded: handlers become pure Lean
functions over an explicit JSON value type, the network becomes an explicit
oracle (`String → NetResult`), and the external language-model backend
becomes an abstract completion function.
-/

namespace Rag

/-! ## JSON values

JSON bodies exchanged over the HTTP surface. Objects are association lists
in insertion order, matching the Python dict literals in the sources. -/

inductive Json where
  | null
  | bool (b : Bool)
  | num (n : Int)
  | str (s : String)
  | arr (elems : List Json)
  | obj (fields : List (String × Json))

/-! ## Backend data model (server.py) -/

/-- `LLM(model="ollama/llama3")`, server.py line 11. -/
structure LLM where
  model : String

/-- Tools are never instantiated in this configuration; their payload is
irrelevant, only the shape of the tool list matters. -/
abbrev Tool := String

/-- A crewai `Agent` as constructed in server.py. `toolsArg` records the
`tools=` keyword argument of the constructor call: `some ts` when the source
passes `tools=ts`, `none` when the source omits the argument. -/
structure Agent where
  role : String
  goal : String
  backstory : String
  verbose : Bool
  toolsArg : Option (List Tool)
  llm : LLM
  allow_delegation : Bool

/-- Modelled from the spec: the effective tool set of an agent. The crewai
library (an external collaborator, not part of this repository) defaults the
`tools` parameter to an empty list when the argument is omitted; the spec
states the configured tool set is empty for both stages. -/
def Agent.tools (a : Agent) : List Tool :=
  a.toolsArg.getD []

/-- `llm = LLM(model="ollama/llama3")`, server.py line 11. -/
def llm : LLM := { model := "ollama/llama3" }

/-- `researcher_agent`, server.py lines 14-22. The source passes `tools=[]`
explicitly. -/
def researcher_agent : Agent :=
  { role := "Research Specialist"
    goal := "Accurately research and understand the user's specific question, then provide detailed insights and facts about the topic"
    backstory := "You are an expert researcher with deep knowledge across many fields. You carefully analyze questions and provide accurate, factual information. You focus on understanding exactly what the user is asking and provide relevant information about that specific topic."
    verbose := true
    toolsArg := some []
    llm := llm
    allow_delegation := false }

/-- `writer_agent`, server.py lines 24-31. The source omits the `tools=`
argument entirely. -/
def writer_agent : Agent :=
  { role := "Technical Writer"
    goal := "Write a clear, accurate, and comprehensive answer that directly addresses the user's question"
    backstory := "You are a skilled technical writer who creates clear, accurate explanations. You take research insights and synthesize them into well-structured answers that directly answer what the user asked. You ensure the answer is relevant to the specific question asked."
    verbose := true
    toolsArg := none
    llm := llm
    allow_delegation := false }

/-- A crewai `Task`: an instruction template (containing the placeholder
`\x7bquery\x7d` interpolated at kickoff), an expected-output description, and
the agent that executes it. -/
structure Task where
  description : String
  expected_output : String
  agent : Agent

/-- `researcher_task`, server.py lines 33-45. -/
def researcher_task : Task :=
  { description := "Carefully analyze the user's question: \"{query}\"\n\nYour task is to:\n1. Understand exactly what the user is asking about\n2. Research and gather accurate information about that specific topic\n3. Provide detailed insights and facts related to the user's question\n4. Focus ONLY on the topic mentioned in the query - do not confuse it with other topics\n\nUser's question: {query}"
    expected_output := "A detailed research report with accurate facts and insights about the specific topic mentioned in the user's question"
    agent := researcher_agent }

/-- `writer_task`, server.py lines 47-60. -/
def writer_task : Task :=
  { description := "Using the research insights provided, write a comprehensive answer to the user's question: \"{query}\"\n\nRequirements:\n1. Directly answer the user's specific question\n2. Use the research insights to provide accurate information\n3. Ensure your answer is about the exact topic the user asked about\n4. Write clearly and comprehensively\n5. Do not confuse the topic with other unrelated subjects\n\nUser's question: {query}"
    expected_output := "A clear, accurate, and comprehensive answer that directly addresses the user's specific question"
    agent := writer_agent }

/-- A crewai `Crew`: the fixed agent and task lists. -/
structure Crew where
  agents : List Agent
  tasks : List Task
  verbose : Bool

/-- `crew`, server.py lines 62-66. -/
def crew : Crew :=
  { agents := [researcher_agent, writer_agent]
    tasks := [researcher_task, writer_task]
    verbose := true }

/-! ## Pipeline orchestration

crewai's sequential execution is an external capability (spec section 6),
not code of this repository. -/

/-- The opaque language-model completion capability (spec section 6): given
an agent (role, goal, backstory) , a fully interpolated instruction, and the
context threaded from the previous stage, it produces free text. -/
abbrev LLMBackend := Agent → String → String → String

/-- One executed stage: which agent ran, the interpolated instruction it
received, the context passed in from the previous stage, and its output. -/
structure StageRun where
  agent : Agent
  prompt : String
  context : String
  output : String

/-- Modelled from the spec: the crewai multi-stage orchestration capability
(spec section 6, not part of this repository) runs the tasks in list order,
interpolates the runtime inputs (here just `query`) into each task
description, and threads each stage's output into the next stage's context.
The first stage receives an empty context. Returns the trace of stage runs
and the final output (the last stage's output; the initial context when the
task list is empty). -/
def runTasks (complete : LLMBackend) (query : String) :
    List Task → String → List StageRun × String
  | [], ctx => ([], ctx)
  | t :: ts, ctx =>
    let prompt := t.description.replace ("{query}") query
    let out := complete t.agent prompt ctx
    let rest := runTasks complete query ts out
    ({ agent := t.agent, prompt := prompt, context := ctx, output := out } :: rest.1, rest.2)

/-- Modelled from the spec: `crew.kickoff(inputs={"query": ...})` — run all
tasks sequentially from an empty initial context and return the final
stage's output. -/
def Crew.kickoff (complete : LLMBackend) (c : Crew) (query : String) : String :=
  (runTasks complete query c.tasks ("")).2

/-! ## Backend HTTP handlers (server.py lines 68-87) -/

/-- An HTTP response: status code and JSON body. `JSONResponse` defaults the
status code to 200 when none is given. -/
structure Response where
  status_code : Nat
  content : Json

/-- `class QueryRequest(BaseModel): query: str`, server.py lines 71-72.
The only field is the raw query string; no validator is attached. -/
structure QueryRequest where
  query : String

/-- Outcome of one pipeline invocation `crew.kickoff(...)` as observed by the
endpoint: either the stringified result `str(result)`, or an exception whose
`str(e)` is `msg` (which Python allows to be empty, e.g. `Exception()`). -/
inductive PipelineOutcome where
  | ok (result : String)
  | exn (msg : String)

/-- `POST /predict`, server.py lines 74-83: invoke the pipeline on the
request's query; on success wrap the stringified result in the
output/raw envelope with status 200; on any exception return status 500
with the exception text under the `error` key. -/
def predict (pipeline : String → PipelineOutcome) (request : QueryRequest) : Response :=
  match pipeline request.query with
  | .ok result => { status_code := 200, content := .obj [("output", .obj [("raw", .str result)])] }
  | .exn e => { status_code := 500, content := .obj [("error", .str e)] }

/-- Process-wide backend state visible to a handler; the only environmental
fact a handler could depend on is whether the language-model backend is up. -/
structure ServerState where
  modelBackendUp : Bool

/-- `GET /health`, server.py lines 85-87: returns the fixed healthy body.
The handler reads nothing and writes nothing, so it is modelled as a pure
function returning the state unchanged. -/
def health (s : ServerState) : Response × ServerState :=
  ({ status_code := 200, content := .obj [("status", .str "healthy")] }, s)

/-! ## Front end (app.py)

The network is an oracle: what `requests.post(url + "/predict", json=...)`
does for each query, and what `requests.get(url + "/health")` does. -/

/-- What a `requests.post` call to `/predict` produces: an HTTP response
(status and, when the body parses as JSON, its value — `none` makes
`response.json()` raise), `requests.exceptions.Timeout`,
`requests.exceptions.ConnectionError`, or another
`requests.exceptions.RequestException` with text `msg`. -/
inductive NetResult where
  | response (status : Nat) (body : Option Json)
  | timeout
  | connError
  | reqExn (msg : String)

/-- What the `requests.get(f"...health", timeout=2)` call inside
`check_server_health` produces: a response with some status code, or any
exception (connection error, timeout, ...). -/
inductive HealthNet where
  | response (code : Nat)
  | failure

/-- `check_server_health`, app.py lines 62-69: true exactly when the health
request completes with status 200; every exception yields false. -/
def check_server_health : HealthNet → Bool
  | .response c => c == 200
  | .failure => false

/-- The user-visible elements the script can emit after the status sidebar:
the status badge, the query input and submit button ("submission control"),
the empty-query warning, the rendered answer text, the raw-response
inspection expander, an error banner, and an info banner. -/
inductive UIElement where
  | statusBadge (online : Bool)
  | submitControl
  | warning (msg : String)
  | answerText (answer : Json)
  | rawView (result : Json)
  | errorMsg (msg : String)
  | info (msg : String)

/-- Timeout banner text, app.py line 133. -/
def timeoutMsg : String :=
  "⏱️ Request timed out. The server might be processing a complex query. Please try again."

/-- Connection-failure banner text, app.py line 135. -/
def connectionFailureMsg : String :=
  "❌ Could not connect to the server. Make sure the server is running."

/-- Generic request-failure banner, app.py line 137 (`f"❌ Error: ..."`). -/
def requestFailureMsg (e : String) : String :=
  "❌ Error: " ++ e

/-- Unexpected-failure banner, app.py line 139 (`f"❌ Unexpected error: ..."`). -/
def unexpectedFailureMsg (e : String) : String :=
  "❌ Unexpected error: " ++ e

/-- `str(e)` of the `requests.exceptions.HTTPError` that
`response.raise_for_status()` raises for a 4xx/5xx status. -/
def httpStatusErrorText (status : Nat) : String :=
  if status < 500 then toString status ++ " Client Error" else toString status ++ " Server Error"

/-- Association-list field lookup on a JSON object's fields. -/
def lookupField : List (String × Json) → String → Option Json
  | [], _ => none
  | (k, v) :: fs, key => if k == key then some v else lookupField fs key

/-- Python `d.get(key, default)`: on a dict, the stored value or the default;
on any non-dict value the attribute access raises (`AttributeError`), caught
by the handler's generic `except Exception` branch. -/
def pyDictGet (j : Json) (key : String) (dflt : Json) : Except String Json :=
  match j with
  | .obj fields => .ok ((lookupField fields key).getD dflt)
  | _ => .error ("AttributeError")

/-- `result.get('output', \x7b\x7d).get('raw', 'No response received')`,
app.py line 121. -/
def extractAnswer (result : Json) : Except String Json := do
  let out ← pyDictGet result ("output") (.obj [])
  pyDictGet out ("raw") (.str ("No response received"))

/-- The characters Python's `str.strip()` removes (`str.isspace()`): the
ASCII whitespace characters (tab, line feed, vertical tab, form feed,
carriage return, space), the separator control characters 0x1c-0x1f, and the
Unicode space characters — next line (0x85), no-break space (0xa0), ogham
space mark (0x1680), the en-quad..hair-space range (0x2000-0x200a), line and
paragraph separator (0x2028, 0x2029), narrow no-break space (0x202f), medium
mathematical space (0x205f) and ideographic space (0x3000). -/
def pyIsSpace (c : Char) : Bool :=
  let n := c.toNat
  n == 9 || n == 10 || n == 11 || n == 12 || n == 13 ||
  n == 28 || n == 29 || n == 30 || n == 31 || n == 32 ||
  n == 133 || n == 160 || n == 5760 ||
  (8192 ≤ n && n ≤ 8202) ||
  n == 8232 || n == 8233 || n == 8239 || n == 8287 || n == 12288

/-- `not query.strip()`: true exactly when the string is empty or consists
only of whitespace (stripping both ends leaves nothing). -/
def pyStripEmpty (s : String) : Bool :=
  s.toList.all pyIsSpace

/-- Result of one run of the submission block: the queries POSTed to
`/predict`, and the UI elements rendered. -/
structure SubmitResult where
  requests : List String
  elements : List UIElement

/-- The submission block, app.py lines 106-139. `if submit_button and query:`
(Python truthiness: the string must be non-empty), then the
whitespace-only check, then the POST with its result handling:
`raise_for_status` diverts 4xx/5xx into the `RequestException` branch, a
non-JSON body or a non-dict `json()` value diverts into the generic
`Exception` branch, and the success path renders the answer markdown
followed by the raw-response expander. -/
def handleSubmit (net : String → NetResult) (submit_button : Bool) (query : String) :
    SubmitResult :=
  if submit_button && !(query == "") then
    if pyStripEmpty query then
      { requests := [], elements := [.warning ("Please enter a question!")] }
    else
      match net query with
      | .response status body =>
        if 400 ≤ status ∧ status < 600 then
          { requests := [query],
            elements := [.errorMsg (requestFailureMsg (httpStatusErrorText status))] }
        else
          match body with
          | none =>
            { requests := [query],
              elements := [.errorMsg (unexpectedFailureMsg ("Expecting value"))] }
          | some result =>
            match extractAnswer result with
            | .ok answer =>
              { requests := [query], elements := [.answerText answer, .rawView result] }
            | .error e =>
              { requests := [query], elements := [.errorMsg (unexpectedFailureMsg e)] }
      | .timeout =>
        { requests := [query], elements := [.errorMsg timeoutMsg] }
      | .connError =>
        { requests := [query], elements := [.errorMsg connectionFailureMsg] }
      | .reqExn e =>
        { requests := [query], elements := [.errorMsg (requestFailureMsg e)] }
  else
    { requests := [], elements := [] }

/-- Offline banner, app.py line 83 (`f"⚠️ Server is not running at ..."`). -/
def offlineErrorText (url : String) : String :=
  "⚠️ Server is not running at " ++ url

/-- Info banner shown alongside the offline error, app.py lines 84-89. -/
def startServerInfoText : String :=
  "To start the server: 1. Open a terminal 2. Navigate to the project directory 3. Run: python3 server.py"

/-- One full run of the script's main flow, app.py lines 76-139: render the
status badge from the (cached) health check; when offline, render the error
and info banners and `st.stop()` — nothing below runs, in particular the
query input and submit button are never rendered and no prediction request
can be issued; when online, render the submission control and run the
submission block. -/
def appRun (url : String) (hnet : HealthNet) (net : String → NetResult)
    (submit_button : Bool) (query : String) : SubmitResult :=
  let is_online := check_server_health hnet
  if is_online then
    let sub := handleSubmit net submit_button query
    { requests := sub.requests,
      elements := .statusBadge true :: .submitControl :: sub.elements }
  else
    { requests := [],
      elements := [.statusBadge false, .errorMsg (offlineErrorText url),
                   .info startServerInfoText] }

/-! ## Helper predicates for the rendering claims -/

/-- Is this element the rendered PipelineResult text? -/
def isAnswerText : UIElement → Bool
  | .answerText _ => true
  | _ => false

/-- Is this element the raw-response inspection view? -/
def isRawView : UIElement → Bool
  | .rawView _ => true
  | _ => false

/-- Is this element an error banner? -/
def isErrorBanner : UIElement → Bool
  | .errorMsg _ => true
  | _ => false

/-- How many of the three outcome classes named by the spec — PipelineResult
text, raw-response inspection view, categorized error message — appear among
the rendered elements. -/
def outcomeClassCount (els : List UIElement) : Nat :=
  (if els.any isAnswerText then 1 else 0) +
  (if els.any isRawView then 1 else 0) +
  (if els.any isErrorBanner then 1 else 0)

/-- The response the `predict` endpoint produces for a given pipeline
outcome (used to state that the endpoint itself never filters the query). -/
def responseFor : PipelineOutcome → Response
  | .ok result => { status_code := 200, content := .obj [("output", .obj [("raw", .str result)])] }
  | .exn e => { status_code := 500, content := .obj [("error", .str e)] }

/-! ## Claims -/

/-- C1: for every query string on which the pipeline invocation succeeds,
`POST /predict` returns HTTP status 200 with body exactly
`{"output": {"raw": <string>}}`, the `raw` field being a JSON string (in
particular not null): it is the stringified pipeline result. -/
theorem C1_predict_success_envelope (pipeline : String → PipelineOutcome)
    (q r : String) (h : pipeline q = .ok r) :
    predict pipeline { query := q } =
      { status_code := 200, content := .obj [("output", .obj [("raw", .str r)])] } ∧
    Json.str r ≠ Json.null := by
  refine ⟨?_, by simp⟩
  simp only [predict, h]

theorem C1_witness :
    predict (fun _ => .ok ("answer text")) { query := "What is AI?" } =
      { status_code := 200, content := .obj [("output", .obj [("raw", .str ("answer text"))])] } ∧
    Json.str ("answer text") ≠ Json.null :=
  C1_predict_success_envelope (fun _ => .ok ("answer text")) ("What is AI?") ("answer text") rfl

/-- C2 counterexample: the claim demands that the `error` value be a
non-empty string for every exception, but `str(e)` of an exception can be
empty (e.g. `Exception()`), and the endpoint forwards it verbatim: for a
pipeline raising an exception with empty text, the 500 body's `error` value
is the empty string. -/
theorem C2_counterexample :
    (predict (fun _ => .exn ("")) { query := "q" }).status_code = 500 ∧
    (predict (fun _ => .exn ("")) { query := "q" }).content = .obj [("error", .str (""))] ∧
    ("" : String).length = 0 :=
  ⟨rfl, rfl, rfl⟩

/-- C2 (amended): if the pipeline invocation raises any exception,
`POST /predict` returns status 500 with body exactly `{"error": str(e)}` —
the exception's text, which the endpoint does not guarantee non-empty — and
in particular no partial or intermediate stage output is included. -/
theorem C2_predict_failure_envelope (pipeline : String → PipelineOutcome)
    (q e : String) (h : pipeline q = .exn e) :
    predict pipeline { query := q } =
      { status_code := 500, content := .obj [("error", .str e)] } := by
  simp only [predict, h]

theorem C2_witness :
    predict (fun _ => .exn ("boom")) { query := "x" } =
      { status_code := 500, content := .obj [("error", .str ("boom"))] } :=
  C2_predict_failure_envelope (fun _ => .exn ("boom")) ("x") ("boom") rfl

/-- C3: `GET /health` returns status 200 with body `{"status": "healthy"}`
for every server state — in particular whether or not the language-model
backend is up — and leaves the state unchanged (no side effects). -/
theorem C3_health_constant (s : ServerState) :
    health s = ({ status_code := 200, content := .obj [("status", .str ("healthy"))] }, s) :=
  rfl

/-- C9 counterexample: the claim says both agents are configured with an
explicitly empty tool set, but the `writer_agent` constructor call omits the
`tools=` argument entirely (server.py lines 24-31), so its tools are not
explicitly configured. -/
theorem C9_counterexample :
    writer_agent.toolsArg = none ∧
    ¬(researcher_agent.toolsArg = some [] ∧ writer_agent.toolsArg = some []) := by
  refine ⟨rfl, ?_⟩
  rintro ⟨-, h⟩
  simp [writer_agent] at h

/-- C9 (amended): the Researcher agent is configured with an explicitly
empty tool set (`tools=[]`), while the Writer agent's constructor omits the
`tools` argument, which the library defaults to an empty list; hence neither
agent has any tools and no stage performs tool use. -/
theorem C9_no_tools :
    researcher_agent.toolsArg = some [] ∧
    writer_agent.toolsArg = none ∧
    researcher_agent.tools = [] ∧
    writer_agent.tools = [] :=
  ⟨rfl, rfl, rfl, rfl⟩

/-- C4: for every query and every language-model backend, the pipeline
executes exactly two stages in a fixed order: the Researcher stage runs
first with its instruction interpolated from only the Query and an empty
context, its output is passed as the context of the Writer stage (whose
instruction is also interpolated from the Query), and the Writer stage's
output is the PipelineResult `POST /predict` returns in its 200 envelope. -/
theorem C4_two_stage_fixed_order (complete : LLMBackend) (q : String) :
    runTasks complete q crew.tasks ("") =
      ([{ agent := researcher_agent,
          prompt := researcher_task.description.replace ("{query}") q,
          context := "",
          output := complete researcher_agent
            (researcher_task.description.replace ("{query}") q) "" },
        { agent := writer_agent,
          prompt := writer_task.description.replace ("{query}") q,
          context := complete researcher_agent
            (researcher_task.description.replace ("{query}") q) "",
          output := complete writer_agent (writer_task.description.replace ("{query}") q)
            (complete researcher_agent
              (researcher_task.description.replace ("{query}") q) "") }],
       complete writer_agent (writer_task.description.replace ("{query}") q)
         (complete researcher_agent (researcher_task.description.replace ("{query}") q) "")) ∧
    predict (fun query => .ok (Crew.kickoff complete crew query)) { query := q } =
      { status_code := 200,
        content := .obj [("output", .obj [("raw",
          .str (complete writer_agent (writer_task.description.replace ("{query}") q)
            (complete researcher_agent
              (researcher_task.description.replace ("{query}") q) "")))])] } :=
  ⟨rfl, rfl⟩

/-- C5: for every query that is empty or consists only of whitespace, the
front end issues no `/predict` request — whatever the backend's health, the
network behaviour, or the button state. -/
theorem C5_blank_query_no_request (url : String) (hnet : HealthNet)
    (net : String → NetResult) (sb : Bool) (q : String)
    (h : pyStripEmpty q = true) :
    (appRun url hnet net sb q).requests = [] := by
  cases hh : check_server_health hnet
  · simp [appRun, hh]
  · cases sb <;> cases hq : (q == "") <;>
      simp [appRun, hh, handleSubmit, hq, h]

theorem C5_witness :
    (appRun ("http://localhost:8000") (.response 200) (fun _ => .timeout)
      true ("  \t ")).requests = [] :=
  C5_blank_query_no_request ("http://localhost:8000") (.response 200)
    (fun _ => .timeout) true ("  \t ") (by decide)

/-- C6: when the prediction request times out, the submission block renders
exactly the timeout banner — a message distinct from the connectivity
banner — and renders neither the answer text nor the raw-response view
(no partial result). -/
theorem C6_timeout_distinct_error (net : String → NetResult) (q : String)
    (hq : pyStripEmpty q = false) (ht : net q = .timeout) :
    (handleSubmit net true q).elements = [.errorMsg timeoutMsg] ∧
    timeoutMsg ≠ connectionFailureMsg ∧
    (handleSubmit net true q).elements.all
      (fun e => !isAnswerText e && !isRawView e) = true := by
  have hq' : (q == "") = false := by
    cases hqe : (q == "") with
    | false => rfl
    | true =>
      have hq0 : q = "" := by simpa using hqe
      subst hq0
      simp [pyStripEmpty] at hq
  have h1 : (handleSubmit net true q).elements = [.errorMsg timeoutMsg] := by
    simp [handleSubmit, hq', hq, ht]
  refine ⟨h1, by decide, ?_⟩
  rw [h1]
  rfl

theorem C6_witness :
    ((handleSubmit (fun _ => .timeout) true ("What is AI?")).elements
        = [.errorMsg timeoutMsg] ∧
      timeoutMsg ≠ connectionFailureMsg ∧
      (handleSubmit (fun _ => .timeout) true ("What is AI?")).elements.all
        (fun e => !isAnswerText e && !isRawView e) = true) :=
  C6_timeout_distinct_error (fun _ => .timeout) ("What is AI?") (by decide) rfl

/-- C7: whenever the cached health check reports offline, the page renders
the offline status badge and the offline error banner, the query-submission
control is never rendered (the script stops first), and no prediction
request is issued. -/
theorem C7_offline_blocks_submission (url : String) (hnet : HealthNet)
    (net : String → NetResult) (sb : Bool) (q : String)
    (h : check_server_health hnet = false) :
    (appRun url hnet net sb q).requests = [] ∧
    UIElement.statusBadge false ∈ (appRun url hnet net sb q).elements ∧
    UIElement.submitControl ∉ (appRun url hnet net sb q).elements ∧
    UIElement.errorMsg (offlineErrorText url) ∈ (appRun url hnet net sb q).elements := by
  simp [appRun, h]

theorem C7_witness :
    (appRun ("http://localhost:8000") (.failure) (fun _ => .timeout)
        true ("What is AI?")).requests = [] ∧
    UIElement.statusBadge false ∈
      (appRun ("http://localhost:8000") (.failure) (fun _ => .timeout)
        true ("What is AI?")).elements ∧
    UIElement.submitControl ∉
      (appRun ("http://localhost:8000") (.failure) (fun _ => .timeout)
        true ("What is AI?")).elements ∧
    UIElement.errorMsg (offlineErrorText ("http://localhost:8000")) ∈
      (appRun ("http://localhost:8000") (.failure) (fun _ => .timeout)
        true ("What is AI?")).elements :=
  C7_offline_blocks_submission ("http://localhost:8000") (.failure)
    (fun _ => .timeout) true ("What is AI?") rfl

/-- A network oracle whose `/predict` responses are exactly the backend's
success envelope: status 200 with `{"output": {"raw": <string>}}`. -/
def okNet : String → NetResult :=
  fun _ => .response 200 (some (.obj [("output", .obj [("raw", .str ("All about AI"))])]))

/-- C8 counterexample: on a successful submission the handler renders two of
the three outcome classes — the PipelineResult text AND the raw-response
inspection view (app.py lines 123-130) — so it does not render exactly one
of the three. -/
theorem C8_counterexample :
    outcomeClassCount (handleSubmit okNet true ("What is AI?")).elements = 2 ∧
    outcomeClassCount (handleSubmit okNet true ("What is AI?")).elements ≠ 1 := by
  constructor <;> decide

/-- The success rendering: exactly one answer text, exactly one raw view, no
error banner. -/
def rendersAnswerWithRaw (els : List UIElement) : Prop :=
  els.countP isAnswerText = 1 ∧ els.countP isRawView = 1 ∧ els.countP isErrorBanner = 0

/-- The failure rendering: exactly one categorized error banner, no answer
text, no raw view. -/
def rendersSingleError (els : List UIElement) : Prop :=
  els.countP isAnswerText = 0 ∧ els.countP isRawView = 0 ∧ els.countP isErrorBanner = 1

/-- C8 (amended): for every submitted (non-blank) query, the front end
renders exactly one of: the PipelineResult text together with the
raw-response inspection view (success), or a single categorized error
message (timeout, connection failure, generic request failure, or
unexpected failure); a result is never rendered together with an error. -/
theorem C8_one_outcome_per_submission (net : String → NetResult) (q : String)
    (hq : pyStripEmpty q = false) :
    rendersAnswerWithRaw (handleSubmit net true q).elements ∨
    rendersSingleError (handleSubmit net true q).elements := by
  have hq' : (q == "") = false := by
    cases hqe : (q == "") with
    | false => rfl
    | true =>
      have hq0 : q = "" := by simpa using hqe
      subst hq0
      simp [pyStripEmpty] at hq
  cases hn : net q with
  | response status body =>
    by_cases hs : 400 ≤ status ∧ status < 600
    · right
      simp [handleSubmit, hq', hq, hn, hs, rendersSingleError,
        isAnswerText, isRawView, isErrorBanner]
    · cases body with
      | none =>
        right
        simp [handleSubmit, hq', hq, hn, hs, rendersSingleError,
          isAnswerText, isRawView, isErrorBanner]
      | some result =>
        cases hext : extractAnswer result with
        | ok answer =>
          left
          simp [handleSubmit, hq', hq, hn, hs, hext, rendersAnswerWithRaw,
            isAnswerText, isRawView, isErrorBanner]
        | error e =>
          right
          simp [handleSubmit, hq', hq, hn, hs, hext, rendersSingleError,
            isAnswerText, isRawView, isErrorBanner]
  | timeout =>
    right
    simp [handleSubmit, hq', hq, hn, rendersSingleError,
      isAnswerText, isRawView, isErrorBanner]
  | connError =>
    right
    simp [handleSubmit, hq', hq, hn, rendersSingleError,
      isAnswerText, isRawView, isErrorBanner]
  | reqExn e =>
    right
    simp [handleSubmit, hq', hq, hn, rendersSingleError,
      isAnswerText, isRawView, isErrorBanner]

theorem C8_witness :
    rendersAnswerWithRaw (handleSubmit okNet true ("What is AI?")).elements ∨
    rendersSingleError (handleSubmit okNet true ("What is AI?")).elements :=
  C8_one_outcome_per_submission okNet ("What is AI?") (by decide)

/-- C10: the backend performs no validation of the query string: for every
string query, including the empty string, the `/predict` handler's response
is exactly the one determined by invoking the pipeline on that query (no
branch rejects any query), while the front end's submission path issues no
request for the empty query — the rejection of empty queries exists only
client-side. -/
theorem C10_no_backend_validation (pipeline : String → PipelineOutcome) (q : String) :
    predict pipeline { query := q } = responseFor (pipeline q) ∧
    predict pipeline { query := "" } = responseFor (pipeline "") ∧
    (∀ (url : String) (hnet : HealthNet) (net : String → NetResult) (sb : Bool),
      (appRun url hnet net sb ("")).requests = []) := by
  refine ⟨?_, ?_, ?_⟩
  · cases h : pipeline q <;> simp only [predict, responseFor, h]
  · cases h : pipeline "" <;> simp only [predict, responseFor, h]
  · intro url hnet net sb
    cases hh : check_server_health hnet <;>
      simp [appRun, hh, handleSubmit]

end Rag
